/-
Verification of the document-to-index pipeline and conversational-agent layer
of the RAG backend (src/backend/app/chat/engine.py), via a shallow embedding
of its data model and operations in Lean 4.

External collaborators (llama_index storage loading, the cachetools TTLCache,
the OpenAI agent loop) are modelled by explicit Lean functions following their
documented semantics; repository code that lives outside src/ (app/chat/constants.py,
app/chat/utils.py, app/models/db.py) is modelled from the spec, as marked in
each doc comment.
-/
import Mathlib

set_option linter.unusedVariables false
set_option maxRecDepth 8192

/-! ## Data model: messages, documents, conversations (app/schema.py, app/models/db.py) -/

/-- Modelled from the spec: `MessageRoleEnum` lives in app/models/db.py, which is not
under src/. The conversation store supplies messages with a role; engine.py compares
the role against `MessageRoleEnum.assistant`, and the claims mention system/unknown
roles, so the enum is modelled with a third constructor beyond user/assistant. -/
inductive MessageRoleEnum where
  | user
  | assistant
  | system
  deriving DecidableEq, Repr

/-- Modelled from the spec: `MessageStatusEnum` lives in app/models/db.py, which is not
under src/. Engine.py compares against `MessageStatusEnum.SUCCESS`; the spec speaks of
failed and pending messages, giving the other constructors. -/
inductive MessageStatusEnum where
  | PENDING
  | SUCCESS
  | ERROR
  deriving DecidableEq, Repr

/-- Role of a `ChatMessage` handed to the model (llama_index `MessageRole`). -/
inductive MessageRole where
  | USER
  | ASSISTANT
  deriving DecidableEq, Repr

/-- A stored conversation message (`Message` schema): role, content, status and
creation time, as used by `get_chat_history` (engine.py:175-204). Creation time is
modelled as a natural number of time units. -/
structure MessageSchema where
  role : MessageRoleEnum
  content : String
  status : MessageStatusEnum
  created_at : Nat
  deriving DecidableEq, Repr

/-- A llama_index `ChatMessage`: content plus user/assistant role. -/
structure ChatMessage where
  content : String
  role : MessageRole
  deriving DecidableEq, Repr

/-- Clinical-guideline metadata block (`ClinicalGuidelineMetadata`), as read by
`build_description_for_document` (engine.py:166-170). `publication_date` is modelled
as the year string that `strftime("%Y")` would produce. -/
structure ClinicalGuidelineMetadata where
  title : String
  issuing_organization : String
  publication_date : Option String
  deriving DecidableEq, Repr

/-- A stored document (`Document` schema): opaque id (its string form, as produced by
`str(document.id)`) and an optional clinical-guideline metadata block standing for
`metadata_map[DocumentMetadataKeysEnum.CLINICAL_GUIDELINE]`. -/
structure DocumentSchema where
  id : String
  metadata_map : Option ClinicalGuidelineMetadata
  deriving DecidableEq, Repr

/-- A conversation: its active document set and its stored messages. -/
structure ConversationSchema where
  documents : List DocumentSchema
  messages : List MessageSchema
  deriving DecidableEq, Repr

/-! ## Chat history construction (engine.py:175-204) -/

/-- Whitespace test of Python `str.strip()`. -/
def isSpaceChar (c : Char) : Bool :=
  c == ' ' || c == '\t' || c == '\n' || c == '\r'

/-- Python `str.strip()`: drop whitespace from both ends of the string. -/
def pyStrip (s : String) : String :=
  ⟨((s.data.dropWhile isSpaceChar).reverse.dropWhile isSpaceChar).reverse⟩

/-- The filter applied by `get_chat_history` (engine.py:188-191): keep a message iff
its stripped content is truthy (non-empty) and its status is SUCCESS. -/
def keepMessage (m : MessageSchema) : Bool :=
  pyStrip m.content != "" && m.status == MessageStatusEnum.SUCCESS

/-- The sort key relation of `sorted(chat_messages, key=lambda m: m.created_at)`
(engine.py:193). -/
def createdLe (a b : MessageSchema) : Prop :=
  a.created_at ≤ b.created_at

instance : DecidableRel createdLe := fun a b => Nat.decLe a.created_at b.created_at

instance : IsTotal MessageSchema createdLe :=
  ⟨fun a b => Nat.le_total a.created_at b.created_at⟩

instance : IsTrans MessageSchema createdLe :=
  ⟨fun _ _ _ hab hbc => Nat.le_trans hab hbc⟩

/-- Conversion of one stored message to a llama_index `ChatMessage`
(engine.py:196-202): role is ASSISTANT exactly when the stored role is assistant,
USER otherwise. -/
def toChatMessage (m : MessageSchema) : ChatMessage :=
  { content := m.content
    role := if m.role = MessageRoleEnum.assistant then MessageRole.ASSISTANT
            else MessageRole.USER }

/-- `get_chat_history` (engine.py:175-204): filter out failed/empty messages, sort
the survivors by creation time (Python `sorted` is a stable sort; insertion sort is
used here as a stable sort with the same observable result), and convert each to a
`ChatMessage`. -/
def get_chat_history (chat_messages : List MessageSchema) : List ChatMessage :=
  (((chat_messages.filter keepMessage).insertionSort createdLe).map toChatMessage)

/-! ## Document descriptions and system prompt (engine.py:154-172, 484-497) -/

/-- `build_description_for_document` (engine.py:154-172): clinical guidelines get a
formatted description built from their metadata; documents without the
clinical-guideline metadata block fall back to a generic description. -/
def build_description_for_document (document : DocumentSchema) : String :=
  match document.metadata_map with
  | some m =>
      "Clinical practice guidelines titled '" ++ m.title ++ "' from "
        ++ m.issuing_organization ++ ", published "
        ++ (match m.publication_date with
            | some year => year
            | none => "date not specified")
        ++ "."
  | none =>
      "A document containing useful information that the user pre-selected to discuss with the assistant."

/-- Modelled from the spec: `build_title_for_document` lives in app/chat/utils.py,
which is not under src/. The spec says the system prompt is templated with the
current document set's titles; malformed metadata falls back to a generic
description. -/
def build_title_for_document (document : DocumentSchema) : String :=
  match document.metadata_map with
  | some m => m.title
  | none => "Untitled document"

/-- The document-title block of the system prompt (engine.py:484-489): a "- "-bulleted
newline-joined list of titles when the conversation has documents, and the literal
placeholder `"No clinical guidelines selected."` when the set is empty. -/
def doc_titles_block (documents : List DocumentSchema) : String :=
  if documents.isEmpty then "No clinical guidelines selected."
  else String.intercalate "\n" (documents.map (fun d => "- " ++ build_title_for_document d))

/-- Modelled from the spec: `CLINICAL_SYSTEM_MESSAGE` lives in app/chat/constants.py,
which is not under src/. The spec states only that system instructions are templated
with the document title list and the current date
(`CLINICAL_SYSTEM_MESSAGE.format(doc_titles=..., curr_date=...)`, engine.py:497);
the surrounding template text here is representative. -/
def CLINICAL_SYSTEM_MESSAGE_format (doc_titles curr_date : String) : String :=
  "You are an expert clinical assistant helping the user analyse the selected clinical practice guidelines.\nThe selected guidelines are:\n"
    ++ doc_titles
    ++ "\nThe current date is "
    ++ curr_date
    ++ "."

/-- Modelled from the spec: `DB_DOC_ID_KEY` lives in app/chat/constants.py, which is
not under src/. It is the metadata key under which every node records its owning
document's id (spec: "children always carry their parent document's id"). -/
def DB_DOC_ID_KEY : String := "db_document_id"

/-! ## Substring containment helpers (used to state "the prompt contains ...") -/

/-- `startsWithChars pat s` holds when `pat` is an initial segment of `s`. -/
def startsWithChars : List Char → List Char → Bool
  | [], _ => true
  | _ :: _, [] => false
  | p :: ps, c :: cs => p == c && startsWithChars ps cs

/-- `containsChars pat s` holds when `pat` occurs contiguously somewhere in `s`. -/
def containsChars (pat : List Char) : List Char → Bool
  | [] => startsWithChars pat []
  | c :: cs => startsWithChars pat (c :: cs) || containsChars pat cs

/-- Boolean substring test on strings. -/
def strContainsB (s pat : String) : Bool :=
  containsChars pat.data s.data

/-- Propositional substring containment: `pat` occurs in `s` between some left and
right parts. -/
def strContains (s pat : String) : Prop :=
  ∃ l r : String, s = l ++ pat ++ r

/-! ## Error taxonomy (Python exception classes relevant to engine.py:274-304) -/

/-- Kinds of Python `ValueError`: the "index id not found" error raised by
`load_indices_from_storage` when a requested id is missing, and
`json.JSONDecodeError` — which in Python is a subclass of `ValueError` — raised when
a persisted index struct fails to deserialize. -/
inductive ValueErrorKind where
  | indexNotFound
  | jsonDecode
  deriving DecidableEq, Repr

/-- Python exception classes the loading paths of engine.py can raise:
`FileNotFoundError` (no persisted storage context at the location), `ValueError`
(with its kind), and any exception outside those classes (e.g. `OSError` from a
transient storage failure), carried with its class name. -/
inductive PyError where
  | fileNotFoundError
  | valueError (kind : ValueErrorKind)
  | otherError (name : String)
  deriving DecidableEq, Repr

/-! ## Persisted storage state and storage contexts -/

/-- One persisted index struct at the storage location: either valid, carrying the
identity token of the persisted index, or undecodable (its deserialization raises a
`ValueError`-class error such as `json.JSONDecodeError`). -/
inductive IndexStructEntry where
  | valid (token : Nat)
  | corrupt
  deriving DecidableEq, Repr

/-- The persisted state at the storage location (`persist_dir`): whether any storage
context has been persisted there, whether blob reads currently fail with a
non-`ValueError` I/O error, and the persisted index structs keyed by index id. -/
structure LocationState where
  hasPersisted : Bool
  ioFailure : Bool
  entries : List (String × IndexStructEntry)
  deriving DecidableEq, Repr

/-- An in-memory llama_index `StorageContext`: the vector store handle it was
constructed with, and the snapshot of index structs held by its index store. -/
structure StorageContext where
  vector_store : Nat
  entries : List (String × IndexStructEntry)
  deriving DecidableEq, Repr

/-- `StorageContext.from_defaults(persist_dir=..., vector_store=..., fs=...)`
(modelled llama_index behavior): raises `FileNotFoundError` when nothing is persisted
at the location, propagates non-`ValueError` I/O failures, and otherwise loads the
persisted index structs into a fresh in-memory context. -/
def storageContextFromPersistDir (loc : LocationState) (vector_store : Nat) :
    Except PyError StorageContext :=
  if loc.ioFailure then Except.error (PyError.otherError "OSError")
  else if loc.hasPersisted then Except.ok ⟨vector_store, loc.entries⟩
  else Except.error PyError.fileNotFoundError

/-! ## TTL cache (cachetools `TTLCache(maxsize=10, ttl=300)` via `@cached`,
engine.py:381-384) -/

/-- `timedelta(minutes=5).total_seconds()` (engine.py:382), in whole seconds. -/
def TTL_SECONDS : Nat := 300

/-- `maxsize=10` (engine.py:382). -/
def CACHE_MAXSIZE : Nat := 10

/-- One cache entry: the cached storage context and its fixed expiry instant
(insertion time + TTL), never updated by reads. -/
structure CacheEntry where
  value : StorageContext
  expires : Nat
  deriving DecidableEq, Repr

/-- The TTL cache state: entries in most-recently-used-first order. -/
structure TTLCacheState where
  entries : List (String × CacheEntry)
  deriving DecidableEq, Repr

/-- The empty cache. -/
def emptyCache : TTLCacheState := ⟨[]⟩

/-- Cache read at time `now` (cachetools `TTLCache.__getitem__`): an entry whose
expiry instant lies strictly in the past is treated as missing (and is left in place
until the next insertion purges it); a live entry is returned and moved to the front
of the recency order. -/
def cacheLookup (c : TTLCacheState) (key : String) (now : Nat) :
    Option (StorageContext × TTLCacheState) :=
  match c.entries.lookup key with
  | none => none
  | some e =>
      if e.expires < now then none
      else some (e.value, ⟨(key, e) :: c.entries.eraseP (fun kv => kv.1 == key)⟩)

/-- Cache insertion at time `now` (cachetools `TTLCache.__setitem__`): purge expired
entries, drop any previous entry for the key, evict the least-recently-used entry if
the cache is full, and insert the new entry with expiry `now + TTL_SECONDS`. -/
def cacheSet (c : TTLCacheState) (key : String) (v : StorageContext) (now : Nat) :
    TTLCacheState :=
  let purged := (c.entries.filter (fun kv => !(kv.2.expires < now))).eraseP
    (fun kv => kv.1 == key)
  let trimmed := if purged.length ≥ CACHE_MAXSIZE then purged.dropLast else purged
  ⟨(key, ⟨v, now + TTL_SECONDS⟩) :: trimmed⟩

/-- The cache key of the `@cached` decorator on `get_storage_context`
(engine.py:383): derived solely from `args[0]` (the persist dir); the vector store
and filesystem arguments are ignored. -/
def storageContextCacheKey (persist_dir : String) : String :=
  "storage_context_" ++ persist_dir

/-- `get_storage_context` (engine.py:381-407) including its `@cached` wrapper: on a
live cache hit return the cached context (reads do not extend the expiry); on a miss
call `StorageContext.from_defaults(persist_dir=...)` and cache a successful result
(exceptions are not cached and propagate). -/
def get_storage_context (c : TTLCacheState) (now : Nat) (persist_dir : String)
    (vector_store : Nat) (loc : LocationState) :
    Except PyError (StorageContext × TTLCacheState) :=
  let key := storageContextCacheKey persist_dir
  match cacheLookup c key now with
  | some (ctx, c2) => Except.ok (ctx, c2)
  | none =>
      match storageContextFromPersistDir loc vector_store with
      | Except.ok ctx => Except.ok (ctx, cacheSet c key ctx now)
      | Except.error e => Except.error e

/-! ## Index loading and building (engine.py:254-330) -/

/-- `settings.S3_BUCKET_NAME`: the single persistence location of the deployment
(`persist_dir = f"{settings.S3_BUCKET_NAME}"`, engine.py:271). Environment-configured;
the concrete value is irrelevant to the claims. -/
def S3_BUCKET_NAME : String := "clinical-guidelines-bucket"

/-- Observable effects of one `build_doc_id_to_index_map` run, in order. Chunking
(`fetch_and_read_document`) and embedding (`VectorStoreIndex.from_documents`) are the
billed per-document operations; the persist events mark writes of the storage context
to the location. -/
inductive BuildEvent where
  | loadPersistedContext
  | createEmptyContext
  | persistStorageContext
  | loadIndicesCall
  | chunkDocument (id : String)
  | embedDocument (id : String)
  | persistIndex (id : String)
  deriving DecidableEq, Repr

/-- Number of embedding passes in a trace. -/
def countEmbedCalls (tr : List BuildEvent) : Nat :=
  (tr.filter (fun e => match e with | BuildEvent.embedDocument _ => true | _ => false)).length

/-- Number of chunking passes in a trace. -/
def countChunkCalls (tr : List BuildEvent) : Nat :=
  (tr.filter (fun e => match e with | BuildEvent.chunkDocument _ => true | _ => false)).length

/-- `load_indices_from_storage(storage_context, index_ids=...)` (modelled llama_index
behavior, engine.py:285-289): look each requested id up in the context's index store;
a missing id raises a `ValueError` ("Failed to load index with ID ..."), an
undecodable index struct raises a `ValueError`-class deserialization error
(`json.JSONDecodeError`), and on success the persisted indices are returned in
request order as their identity tokens. -/
def load_indices_from_storage (ctx : StorageContext) : List String → Except PyError (List Nat)
  | [] => Except.ok []
  | id :: rest =>
      match ctx.entries.lookup id with
      | none => Except.error (PyError.valueError ValueErrorKind.indexNotFound)
      | some IndexStructEntry.corrupt =>
          Except.error (PyError.valueError ValueErrorKind.jsonDecode)
      | some (IndexStructEntry.valid token) =>
          match load_indices_from_storage ctx rest with
          | Except.ok tokens => Except.ok (token :: tokens)
          | Except.error e => Except.error e

/-- The per-document rebuild loop of the `except ValueError` branch
(engine.py:305-328): for each document, fetch and chunk it, embed its nodes into a
fresh index whose id is the document id, and persist the updated storage context
(upserting the index struct at the location). `nextToken` numbers the freshly built
indices. -/
def rebuildDocuments (loc : LocationState) (nextToken : Nat) :
    List DocumentSchema → List (String × Nat) × LocationState × List BuildEvent
  | [] => ([], loc, [])
  | doc :: rest =>
      let token := nextToken
      let loc2 : LocationState :=
        { loc with
          entries := (doc.id, IndexStructEntry.valid token) ::
            loc.entries.eraseP (fun kv => kv.1 == doc.id) }
      let (restMap, loc3, tr) := rebuildDocuments loc2 (nextToken + 1) rest
      ((doc.id, token) :: restMap, loc3,
        [BuildEvent.chunkDocument doc.id, BuildEvent.embedDocument doc.id,
         BuildEvent.persistIndex doc.id] ++ tr)

/-- The result of `build_doc_id_to_index_map`: the document-id-to-index mapping, the
persisted location state and cache state after the run, and the event trace. -/
structure BuildOutcome where
  doc_id_to_index : List (String × Nat)
  loc : LocationState
  cache : TTLCacheState
  trace : List BuildEvent
  deriving DecidableEq, Repr

/-- `build_doc_id_to_index_map` (engine.py:254-330).

Outer `try`: obtain the storage context via the cached `get_storage_context`
(`FileNotFoundError` → construct a fresh empty context and persist it immediately,
engine.py:275-281), then bulk-load the indices for the requested document ids
(engine.py:283-291).

`except ValueError` (engine.py:293-328): reload a storage context from the persist
dir and rebuild every requested document's index per document — chunk, embed,
persist. Any exception outside `ValueError` propagates to the caller. -/
def build_doc_id_to_index_map (cache : TTLCacheState) (now : Nat)
    (loc : LocationState) (vector_store : Nat) (documents : List DocumentSchema) :
    Except PyError BuildOutcome :=
  let persist_dir := S3_BUCKET_NAME
  let index_ids := documents.map (fun d => d.id)
  -- engine.py:275-281: inner try/except FileNotFoundError
  let afterCtx : Except PyError (StorageContext × LocationState × TTLCacheState × List BuildEvent) :=
    match get_storage_context cache now persist_dir vector_store loc with
    | Except.ok (ctx, c2) => Except.ok (ctx, loc, c2, [BuildEvent.loadPersistedContext])
    | Except.error PyError.fileNotFoundError =>
        -- StorageContext.from_defaults(vector_store=...) + persist (engine.py:280-281)
        let ctx : StorageContext := ⟨vector_store, []⟩
        let loc2 : LocationState := { loc with hasPersisted := true, entries := [] }
        Except.ok (ctx, loc2, cache,
          [BuildEvent.loadPersistedContext, BuildEvent.createEmptyContext,
           BuildEvent.persistStorageContext])
    | Except.error e => Except.error e
  match afterCtx with
  | Except.error e => Except.error e
  | Except.ok (ctx, loc1, cache1, tr1) =>
      match load_indices_from_storage ctx index_ids with
      | Except.ok tokens =>
          -- bulk-load success path (engine.py:290)
          Except.ok ⟨index_ids.zip tokens, loc1, cache1, tr1 ++ [BuildEvent.loadIndicesCall]⟩
      | Except.error (PyError.valueError _) =>
          -- except ValueError (engine.py:293): reload the persisted context ...
          match storageContextFromPersistDir loc1 vector_store with
          | Except.error e => Except.error e
          | Except.ok _ctx2 =>
              -- ... and rebuild per document (engine.py:305-328)
              let (m, loc2, tr2) := rebuildDocuments loc1 0 documents
              Except.ok ⟨m, loc2, cache1, tr1 ++ [BuildEvent.loadIndicesCall] ++ tr2⟩
      | Except.error e => Except.error e

/-! ## Per-document query engine (engine.py:333-378) -/

/-- llama_index `ExactMatchFilter`: a node passes iff its metadata at `key` equals
`value` exactly. -/
structure ExactMatchFilter where
  key : String
  value : String
  deriving DecidableEq, Repr

/-- llama_index `VectorIndexRetriever` configuration as built by
`index_to_query_engine`: the number of chunks to fetch and the metadata filters
passed through `vector_store_kwargs`. -/
structure VectorIndexRetriever where
  similarity_top_k : Nat
  filters : List ExactMatchFilter
  deriving DecidableEq, Repr

/-- llama_index `RetrieverQueryEngine`: its retriever (the response synthesizer is an
opaque collaborator and is not modelled beyond its presence). -/
structure RetrieverQueryEngine where
  retriever : VectorIndexRetriever
  deriving DecidableEq, Repr

/-- `index_to_query_engine` (engine.py:333-378): a retriever over the document's
index with `similarity_top_k=3` and a single exact-match filter
`ExactMatchFilter(key=DB_DOC_ID_KEY, value=doc_id)`, wrapped in a
`RetrieverQueryEngine`. -/
def index_to_query_engine (doc_id : String) : RetrieverQueryEngine :=
  { retriever :=
      { similarity_top_k := 3
        filters := [{ key := DB_DOC_ID_KEY, value := doc_id }] } }

/-- A retrievable node: its metadata map and text. -/
structure NodeV where
  metadata : List (String × String)
  text : String
  deriving DecidableEq, Repr

/-- `ExactMatchFilter` semantics: the node's metadata at the filter's key equals the
filter's value. -/
def nodeMatchesFilter (n : NodeV) (f : ExactMatchFilter) : Bool :=
  n.metadata.lookup f.key == some f.value

/-- Similarity order for retrieval: node `a` ranks at least as high as node `b` under
the similarity scores `sim`. -/
def simGe (sim : NodeV → Nat) (a b : NodeV) : Prop :=
  sim b ≤ sim a

instance (sim : NodeV → Nat) : DecidableRel (simGe sim) :=
  fun a b => Nat.decLe (sim b) (sim a)

/-- Vector retrieval semantics: among the nodes of the store that pass every metadata
filter, return the `similarity_top_k` most similar nodes to the query (sorted by
descending similarity score). -/
def retrieve (r : VectorIndexRetriever) (store : List NodeV) (sim : NodeV → Nat) :
    List NodeV :=
  (((store.filter (fun n => r.filters.all (nodeMatchesFilter n))).insertionSort
    (simGe sim)).take r.similarity_top_k)

/-! ## Conversational agent turn loop (engine.py:492-500 and llama_index OpenAIAgent) -/

/-- One decision of the reasoning step within a turn: request another tool call, or
finish and respond. -/
inductive AgentDecision where
  | toolCall
  | finish
  deriving DecidableEq, Repr

/-- Terminal phase of a turn. -/
inductive AgentPhase where
  | responding
  deriving DecidableEq, Repr

/-- Outcome of one turn: how many tool calls were dispatched, the collected tool
results (numbered in dispatch order) from which the final response is assembled, and
the terminal phase. -/
structure TurnOutcome where
  dispatched : Nat
  toolResults : List Nat
  phase : AgentPhase
  deriving DecidableEq, Repr

/-- The turn loop, structurally recursive on the remaining tool-call budget:
`remaining` is the budget left, `n` the number of calls dispatched so far, `rs` the
tool results collected so far (most recent first). When the budget is exhausted the
agent stops dispatching and responds from the collected results; otherwise the
reasoning step decides to dispatch or to finish. -/
def runTurnLoop (decide_ : Nat → AgentDecision) :
    Nat → Nat → List Nat → TurnOutcome
  | 0, n, rs => ⟨n, rs.reverse, AgentPhase.responding⟩
  | remaining + 1, n, rs =>
      match decide_ n with
      | AgentDecision.finish => ⟨n, rs.reverse, AgentPhase.responding⟩
      | AgentDecision.toolCall => runTurnLoop decide_ remaining (n + 1) (n :: rs)

/-- Modelled from the spec: the agent's turn loop lives in llama_index's
`OpenAIAgent`, outside this repository. The spec's §4.5 state machine — iterate
`awaiting_model → tool_dispatch` rounds, with at most `max_function_calls` tool
invocations per turn, exceeding the budget forcing a transition to `responding` with
whatever tool results are available — is modelled as `runTurnLoop` run with the
budget that `get_chat_engine` passes (`max_function_calls=3`, engine.py:499). -/
def runTurn (max_function_calls : Nat) (decide_ : Nat → AgentDecision) : TurnOutcome :=
  runTurnLoop decide_ max_function_calls 0 []

/-! ## Chat engine assembly (engine.py:410-502) -/

/-- A llama_index `QueryEngineTool`'s observable configuration: its name and
description (`ToolMetadata`). -/
structure QueryEngineTool where
  name : String
  description : String
  deriving DecidableEq, Repr

/-- The observable configuration of the `OpenAIAgent` built by `get_chat_engine`:
the per-document router tools handed to the `SubQuestionQueryEngine`, the single
top-level tool wrapping it, the formatted system prompt, the chat history, and the
tool-call budget. -/
structure ChatEngineConfig where
  router_tools : List QueryEngineTool
  top_level_tools : List QueryEngineTool
  system_prompt : String
  chat_history : List ChatMessage
  max_function_calls : Nat
  deriving DecidableEq, Repr

/-- `get_chat_engine` (engine.py:410-502): build the document-id-to-index map, wrap
each entry in a document-scoped query engine tool named by the document id and
described by `build_description_for_document`, compose them under the
`SubQuestionQueryEngine` exposed as the single top-level `clinical_guidelines` tool,
and assemble the agent with the filtered chat history, the templated system prompt
(document titles or the empty-set placeholder, plus the current date) and
`max_function_calls=3`. -/
def get_chat_engine (cache : TTLCacheState) (now : Nat) (loc : LocationState)
    (vector_store : Nat) (conversation : ConversationSchema) (curr_date : String) :
    Except PyError (ChatEngineConfig × LocationState × TTLCacheState) :=
  match build_doc_id_to_index_map cache now loc vector_store conversation.documents with
  | Except.error e => Except.error e
  | Except.ok outcome =>
      let router_tools : List QueryEngineTool :=
        outcome.doc_id_to_index.map (fun p =>
          { name := p.1
            description :=
              match conversation.documents.find? (fun d => d.id == p.1) with
              | some d => build_description_for_document d
              | none => "" })
      let doc_titles := doc_titles_block conversation.documents
      Except.ok
        ({ router_tools := router_tools
           top_level_tools :=
             [{ name := "clinical_guidelines"
                description := "A query engine specialized for analyzing clinical practice guidelines." }]
           system_prompt := CLINICAL_SYSTEM_MESSAGE_format doc_titles curr_date
           chat_history := get_chat_history conversation.messages
           max_function_calls := 3 },
         outcome.loc, outcome.cache)

/-! ## Remaining auxiliary definitions (read sequences, result projections,
concrete example states used by witnesses) -/

/-- Apply a sequence of cache reads for `key` at the given times, threading the cache
state (models repeated read pressure on the TTL cache between two instants). -/
def readSeq (key : String) : TTLCacheState → List Nat → TTLCacheState
  | c, [] => c
  | c, t :: ts =>
      readSeq key
        (match cacheLookup c key t with
         | some (_, c2) => c2
         | none => c) ts

/-- Number of embedding passes of a build run, `none` when the run raised. -/
def embedCallsOf : Except PyError BuildOutcome → Option Nat
  | Except.ok o => some (countEmbedCalls o.trace)
  | Except.error _ => none

/-- Number of chunking passes of a build run, `none` when the run raised. -/
def chunkCallsOf : Except PyError BuildOutcome → Option Nat
  | Except.ok o => some (countChunkCalls o.trace)
  | Except.error _ => none

/-- The system prompt of a chat-engine build, `none` when the build raised. -/
def systemPromptOf :
    Except PyError (ChatEngineConfig × LocationState × TTLCacheState) → Option String
  | Except.ok (cfg, _, _) => some cfg.system_prompt
  | Except.error _ => none

/-- The router tool list of a chat-engine build, `none` when the build raised. -/
def routerToolsOf :
    Except PyError (ChatEngineConfig × LocationState × TTLCacheState) →
      Option (List QueryEngineTool)
  | Except.ok (cfg, _, _) => some cfg.router_tools
  | Except.error _ => none

/-- A location holding a persisted (empty) storage context and healthy storage. -/
def examplePersistedEmptyLoc : LocationState := ⟨true, false, []⟩

/-- A location holding a persisted storage context with an index for document "X". -/
def exampleLocWithX : LocationState := ⟨true, false, [("X", IndexStructEntry.valid 5)]⟩

/-- The location state after the first example build run persists document "Y"'s
index next to "X"'s. -/
def locAfterFirstBuild : LocationState :=
  ⟨true, false, [("Y", IndexStructEntry.valid 0), ("X", IndexStructEntry.valid 5)]⟩

/-- The cache state after the first example build run: it still holds the storage
context loaded before "Y"'s index was built, so the entry is stale with respect to
the persisted location until it expires at time 400. -/
def staleCacheExample : TTLCacheState :=
  ⟨[("storage_context_clinical-guidelines-bucket",
     ⟨⟨7, [("X", IndexStructEntry.valid 5)]⟩, 400⟩)]⟩

/-- The chat-engine configuration produced for an empty conversation at date
2026-01-01 (used by witnesses at concrete inputs). -/
def exampleChatEngineCfg : ChatEngineConfig :=
  { router_tools := []
    top_level_tools :=
      [{ name := "clinical_guidelines"
         description := "A query engine specialized for analyzing clinical practice guidelines." }]
    system_prompt :=
      "You are an expert clinical assistant helping the user analyse the selected clinical practice guidelines.\nThe selected guidelines are:\nNo clinical guidelines selected.\nThe current date is 2026-01-01."
    chat_history := []
    max_function_calls := 3 }

/-- The cache state after the empty-conversation chat-engine build at time 0. -/
def exampleCacheAfterEmptyBuild : TTLCacheState :=
  ⟨[("storage_context_clinical-guidelines-bucket", ⟨⟨0, []⟩, 300⟩)]⟩

/-! ## Auxiliary lemmas -/

/-- String concatenation is associative (componentwise `List.append_assoc`). -/
theorem string_append_assoc (a b c : String) : a ++ b ++ c = a ++ (b ++ c) := by
  cases a with
  | mk da =>
    cases b with
    | mk db =>
      cases c with
      | mk dc =>
        show String.mk (da ++ db ++ dc) = String.mk (da ++ (db ++ dc))
        rw [List.append_assoc]

/-! ## C9: chat history contains exactly the successful, non-empty messages in
ascending creation-time order -/

/-- C9: for every list of messages, the chat history constructed by
`get_chat_history` consists of exactly the input messages whose status is SUCCESS and
whose content is non-empty after stripping whitespace — a permutation of the filtered
input, arranged in ascending creation-time order — converted to chat messages; all
other messages are excluded. -/
theorem get_chat_history_exact_membership (msgs : List MessageSchema) :
    ∃ kept : List MessageSchema,
      List.Perm kept
        (msgs.filter (fun m => pyStrip m.content != "" && m.status == MessageStatusEnum.SUCCESS)) ∧
      List.Sorted (fun a b => a.created_at ≤ b.created_at) kept ∧
      get_chat_history msgs = kept.map toChatMessage := by
  refine ⟨(msgs.filter keepMessage).insertionSort createdLe, ?_, ?_, rfl⟩
  · exact List.perm_insertionSort createdLe (msgs.filter keepMessage)
  · exact List.sorted_insertionSort createdLe (msgs.filter keepMessage)

/-! ## C10: role mapping of retained messages -/

/-- C10: every message retained in the constructed chat history carries only the
user or assistant role; it originates from a stored input message, and it is assigned
the assistant role exactly when that stored message's role is assistant — every other
stored role (user, system or otherwise) is mapped to the user role. -/
theorem get_chat_history_role_mapping (msgs : List MessageSchema) (cm : ChatMessage)
    (h : cm ∈ get_chat_history msgs) :
    (cm.role = MessageRole.USER ∨ cm.role = MessageRole.ASSISTANT) ∧
    ∃ m : MessageSchema, m ∈ msgs ∧ cm = toChatMessage m ∧
      (cm.role = MessageRole.ASSISTANT ↔ m.role = MessageRoleEnum.assistant) := by
  obtain ⟨m, hm, hcm⟩ := List.mem_map.mp h
  have hmem : m ∈ msgs.filter keepMessage :=
    (List.perm_insertionSort createdLe (msgs.filter keepMessage)).subset hm
  have hmsgs : m ∈ msgs := List.mem_of_mem_filter hmem
  subst hcm
  refine ⟨?_, m, hmsgs, rfl, ?_⟩
  · by_cases hr : m.role = MessageRoleEnum.assistant <;> simp [toChatMessage, hr]
  · by_cases hr : m.role = MessageRoleEnum.assistant <;> simp [toChatMessage, hr]

/-- Witness for C10 at a concrete input: a successful system-role message is retained
and mapped to the user role. -/
theorem get_chat_history_role_mapping_witness :
    ((⟨"hi", MessageRole.USER⟩ : ChatMessage).role = MessageRole.USER ∨
      (⟨"hi", MessageRole.USER⟩ : ChatMessage).role = MessageRole.ASSISTANT) ∧
    ∃ m : MessageSchema,
      m ∈ [(⟨MessageRoleEnum.system, "hi", MessageStatusEnum.SUCCESS, 0⟩ : MessageSchema)] ∧
      (⟨"hi", MessageRole.USER⟩ : ChatMessage) = toChatMessage m ∧
      ((⟨"hi", MessageRole.USER⟩ : ChatMessage).role = MessageRole.ASSISTANT ↔
        m.role = MessageRoleEnum.assistant) :=
  get_chat_history_role_mapping
    [⟨MessageRoleEnum.system, "hi", MessageStatusEnum.SUCCESS, 0⟩]
    ⟨"hi", MessageRole.USER⟩ (by decide)

/-! ## C5: per-document query engine restricts retrieval by exact document-id match
and fetches the top 3 chunks -/

/-- C5: for every document id, the query engine produced by `index_to_query_engine`
is configured with `similarity_top_k = 3` and a single exact-match metadata filter on
the document-id key; consequently, against any node store and any similarity scoring,
it retrieves at most 3 nodes and every retrieved node's document-id metadata equals
the document id exactly. -/
theorem index_to_query_engine_filtered_topk (doc_id : String) (store : List NodeV)
    (sim : NodeV → Nat) :
    (index_to_query_engine doc_id).retriever.similarity_top_k = 3 ∧
    (index_to_query_engine doc_id).retriever.filters =
      [{ key := DB_DOC_ID_KEY, value := doc_id }] ∧
    (retrieve (index_to_query_engine doc_id).retriever store sim).length ≤ 3 ∧
    ∀ n ∈ retrieve (index_to_query_engine doc_id).retriever store sim,
      n.metadata.lookup DB_DOC_ID_KEY = some doc_id := by
  refine ⟨rfl, rfl, ?_, ?_⟩
  · exact List.length_take_le 3
      ((store.filter
        (fun n => (index_to_query_engine doc_id).retriever.filters.all
          (nodeMatchesFilter n))).insertionSort (simGe sim))
  · intro n hn
    have h1 : n ∈ (store.filter
        (fun nd => (index_to_query_engine doc_id).retriever.filters.all
          (nodeMatchesFilter nd))).insertionSort (simGe sim) :=
      List.mem_of_mem_take hn
    have h2 : n ∈ store.filter
        (fun nd => (index_to_query_engine doc_id).retriever.filters.all
          (nodeMatchesFilter nd)) :=
      (List.perm_insertionSort (simGe sim) _).subset h1
    have h3 := List.of_mem_filter h2
    simpa [index_to_query_engine, nodeMatchesFilter] using h3

/-- Witness for C5 at a concrete input: one matching and one non-matching node. -/
theorem index_to_query_engine_filtered_topk_witness :
    (index_to_query_engine "D").retriever.similarity_top_k = 3 ∧
    (index_to_query_engine "D").retriever.filters =
      [{ key := DB_DOC_ID_KEY, value := "D" }] ∧
    (retrieve (index_to_query_engine "D").retriever
      [⟨[(DB_DOC_ID_KEY, "D")], "a"⟩, ⟨[(DB_DOC_ID_KEY, "E")], "b"⟩] (fun _ => 0)).length ≤ 3 ∧
    ∀ n ∈ retrieve (index_to_query_engine "D").retriever
      [⟨[(DB_DOC_ID_KEY, "D")], "a"⟩, ⟨[(DB_DOC_ID_KEY, "E")], "b"⟩] (fun _ => 0),
      n.metadata.lookup DB_DOC_ID_KEY = some "D" :=
  index_to_query_engine_filtered_topk "D"
    [⟨[(DB_DOC_ID_KEY, "D")], "a"⟩, ⟨[(DB_DOC_ID_KEY, "E")], "b"⟩] (fun _ => 0)

/-! ## C2: at most 3 tool invocations per turn -/

/-- The turn loop dispatches at most `n + remaining` tool calls when `n` calls have
already been dispatched and `remaining` budget is left. -/
theorem runTurnLoop_dispatched_le (decide_ : Nat → AgentDecision) :
    ∀ (remaining n : Nat) (rs : List Nat),
      (runTurnLoop decide_ remaining n rs).dispatched ≤ n + remaining
  | 0, n, rs => by simp [runTurnLoop]
  | remaining + 1, n, rs => by
      cases hd : decide_ n with
      | finish => simp [runTurnLoop, hd]
      | toolCall =>
          have ih := runTurnLoop_dispatched_le decide_ remaining (n + 1) (n :: rs)
          simp only [runTurnLoop, hd]
          omega

/-- C2: for every chat engine built by `get_chat_engine`, every reasoning strategy
dispatches at most 3 tool invocations per turn; a strategy that always requests
another tool call is stopped after exactly the 3rd dispatched call, and the agent
transitions to responding with the 3 collected tool results. -/
theorem chat_engine_tool_budget (cache : TTLCacheState) (now : Nat)
    (loc : LocationState) (vector_store : Nat) (conversation : ConversationSchema)
    (curr_date : String) (cfg : ChatEngineConfig) (loc' : LocationState)
    (c' : TTLCacheState)
    (h : get_chat_engine cache now loc vector_store conversation curr_date =
      Except.ok (cfg, loc', c')) :
    (∀ decide_ : Nat → AgentDecision,
      (runTurn cfg.max_function_calls decide_).dispatched ≤ 3) ∧
    runTurn cfg.max_function_calls (fun _ => AgentDecision.toolCall) =
      ⟨3, [0, 1, 2], AgentPhase.responding⟩ := by
  have hmax : cfg.max_function_calls = 3 := by
    unfold get_chat_engine at h
    cases hb : build_doc_id_to_index_map cache now loc vector_store
        conversation.documents with
    | error e => rw [hb] at h; cases h
    | ok o =>
        rw [hb] at h
        simp only [Except.ok.injEq, Prod.mk.injEq] at h
        rw [← h.1]
  constructor
  · intro decide_
    have := runTurnLoop_dispatched_le decide_ cfg.max_function_calls 0 []
    rw [hmax] at this
    simpa [runTurn, hmax] using this
  · rw [hmax]
    rfl

/-- Witness for C2 at a concrete input: the chat engine built for an empty
conversation carries the budget 3, and an always-tool-calling strategy is stopped
after exactly 3 dispatched calls. -/
theorem chat_engine_tool_budget_witness :
    runTurn exampleChatEngineCfg.max_function_calls (fun _ => AgentDecision.toolCall) =
      ⟨3, [0, 1, 2], AgentPhase.responding⟩ :=
  (chat_engine_tool_budget emptyCache 0 examplePersistedEmptyLoc 0 ⟨[], []⟩
    "2026-01-01" exampleChatEngineCfg examplePersistedEmptyLoc
    exampleCacheAfterEmptyBuild rfl).2

/-! ## C7: fixed 5-minute TTL from creation, no sliding expiration -/

/-- Reads leave a single-entry cache unchanged: a hit only moves the entry to the
front of the recency order (a no-op for a singleton) and never touches its expiry; a
miss on an expired entry leaves it in place. -/
theorem readSeq_singleton (key : String) (e : CacheEntry) :
    ∀ ts : List Nat, readSeq key ⟨[(key, e)]⟩ ts = ⟨[(key, e)]⟩
  | [] => rfl
  | t :: ts => by
      have hstep :
          (match cacheLookup ⟨[(key, e)]⟩ key t with
           | some (_, c2) => c2
           | none => (⟨[(key, e)]⟩ : TTLCacheState)) = ⟨[(key, e)]⟩ := by
        by_cases hexp : e.expires < t <;>
          simp [cacheLookup, List.lookup, hexp]
      rw [readSeq, hstep]
      exact readSeq_singleton key e ts

/-- C7: a storage-context cache entry created at time `t0` expires exactly
`TTL_SECONDS` after its creation: whatever sequence of reads is applied in between,
a lookup strictly after `t0 + TTL_SECONDS` misses, and a lookup at or before
`t0 + TTL_SECONDS` still returns the originally cached value — read pressure never
extends the expiry (no sliding TTL). -/
theorem ttl_cache_fixed_expiry_no_sliding (key : String) (v : StorageContext)
    (t0 t t' : Nat) (ts : List Nat)
    (hafter : t0 + TTL_SECONDS < t) (hwithin : t' ≤ t0 + TTL_SECONDS) :
    cacheLookup (readSeq key (cacheSet emptyCache key v t0) ts) key t = none ∧
    (cacheLookup (readSeq key (cacheSet emptyCache key v t0) ts) key t').map
      (fun p => p.1) = some v := by
  have hset : cacheSet emptyCache key v t0 = ⟨[(key, ⟨v, t0 + TTL_SECONDS⟩)]⟩ := by
    simp [cacheSet, emptyCache, CACHE_MAXSIZE]
  rw [hset, readSeq_singleton key ⟨v, t0 + TTL_SECONDS⟩ ts]
  constructor
  · simp [cacheLookup, List.lookup, hafter]
  · have hnot : ¬ (t0 + TTL_SECONDS < t') := Nat.not_lt.mpr hwithin
    simp [cacheLookup, List.lookup, hnot]

/-- Witness for C7 at a concrete input: an entry created at time 10 with reads at
times 50, 100 and 250 is still returned at time 310 and no longer returned at
time 311. -/
theorem ttl_cache_fixed_expiry_no_sliding_witness :
    cacheLookup (readSeq "k" (cacheSet emptyCache "k" ⟨1, []⟩ 10) [50, 100, 250]) "k" 311 =
      none ∧
    (cacheLookup (readSeq "k" (cacheSet emptyCache "k" ⟨1, []⟩ 10) [50, 100, 250]) "k" 310).map
      (fun p => p.1) = some ⟨1, []⟩ :=
  ttl_cache_fixed_expiry_no_sliding "k" ⟨1, []⟩ 10 311 310 [50, 100, 250]
    (by decide) (by decide)

/-! ## C6: the storage-context cache key is derived solely from the location -/

/-- C6: starting from an empty cache, a first call to `get_storage_context` for a
location loads and caches the storage context built with its vector store handle;
a second call within the TTL for the same location — with a different vector store
handle and even a different view of the persisted location — returns the very
storage context created by the first call (still carrying the first call's vector
store), because the cache key is derived solely from the location. -/
theorem get_storage_context_key_solely_location (persist_dir : String)
    (vs1 vs2 : Nat) (loc loc2 : LocationState) (t1 t2 : Nat)
    (hp : loc.hasPersisted = true) (hio : loc.ioFailure = false)
    (hwithin : t2 ≤ t1 + TTL_SECONDS) :
    ∃ c1 c2 : TTLCacheState,
      get_storage_context emptyCache t1 persist_dir vs1 loc =
        Except.ok (⟨vs1, loc.entries⟩, c1) ∧
      get_storage_context c1 t2 persist_dir vs2 loc2 =
        Except.ok (⟨vs1, loc.entries⟩, c2) := by
  have h1 : get_storage_context emptyCache t1 persist_dir vs1 loc =
      Except.ok (⟨vs1, loc.entries⟩,
        cacheSet emptyCache (storageContextCacheKey persist_dir) ⟨vs1, loc.entries⟩ t1) := by
    simp [get_storage_context, cacheLookup, emptyCache, List.lookup,
      storageContextFromPersistDir, hp, hio]
  have hset : cacheSet emptyCache (storageContextCacheKey persist_dir)
      ⟨vs1, loc.entries⟩ t1 =
      ⟨[(storageContextCacheKey persist_dir, ⟨⟨vs1, loc.entries⟩, t1 + TTL_SECONDS⟩)]⟩ := by
    simp [cacheSet, emptyCache, CACHE_MAXSIZE]
  have hnot : ¬ (t1 + TTL_SECONDS < t2) := Nat.not_lt.mpr hwithin
  refine ⟨_, ⟨[(storageContextCacheKey persist_dir,
    ⟨⟨vs1, loc.entries⟩, t1 + TTL_SECONDS⟩)]⟩, h1, ?_⟩
  rw [hset]
  simp [get_storage_context, cacheLookup, List.lookup, hnot]

/-- Witness for C6 at a concrete input: the second call passes vector store 2 but
receives the context built with vector store 1. -/
theorem get_storage_context_key_solely_location_witness :
    ∃ c1 c2 : TTLCacheState,
      get_storage_context emptyCache 10 "pd" 1 examplePersistedEmptyLoc =
        Except.ok (⟨1, examplePersistedEmptyLoc.entries⟩, c1) ∧
      get_storage_context c1 300 "pd" 2 exampleLocWithX =
        Except.ok (⟨1, examplePersistedEmptyLoc.entries⟩, c2) :=
  get_storage_context_key_solely_location "pd" 1 2 examplePersistedEmptyLoc
    exampleLocWithX 10 300 rfl rfl (by decide)

/-! ## C8: on a cache miss with no persisted state, an empty context is created and
persisted before any index work -/

/-- The per-document rebuild loop only touches the persisted index entries; it leaves
the location's `hasPersisted` and `ioFailure` flags unchanged. -/
theorem rebuildDocuments_loc_flags :
    ∀ (documents : List DocumentSchema) (loc : LocationState) (nextToken : Nat),
      (rebuildDocuments loc nextToken documents).2.1.hasPersisted = loc.hasPersisted ∧
      (rebuildDocuments loc nextToken documents).2.1.ioFailure = loc.ioFailure
  | [], loc, n => ⟨rfl, rfl⟩
  | d :: ds, loc, n => by
      rcases hre : rebuildDocuments
        { loc with entries := (d.id, IndexStructEntry.valid n) ::
            loc.entries.eraseP (fun kv => kv.1 == d.id) } (n + 1) ds
        with ⟨m, l3, tr⟩
      have ih := rebuildDocuments_loc_flags ds
        { loc with entries := (d.id, IndexStructEntry.valid n) ::
            loc.entries.eraseP (fun kv => kv.1 == d.id) } (n + 1)
      rw [hre] at ih
      simp only [rebuildDocuments, hre]
      exact ih

/-- C8: when the storage-context cache misses and no persisted state exists at the
location, `build_doc_id_to_index_map` first attempts to load the persisted context,
then constructs a new empty storage context and persists it immediately — the persist
event is among the first three trace events, before any index loading, chunking or
embedding — and afterwards the location holds a persisted context. -/
theorem build_persists_empty_context_before_index_work (cache : TTLCacheState)
    (now : Nat) (loc : LocationState) (vs : Nat) (documents : List DocumentSchema)
    (hmiss : cacheLookup cache (storageContextCacheKey S3_BUCKET_NAME) now = none)
    (hnp : loc.hasPersisted = false) (hio : loc.ioFailure = false) :
    ∃ outcome : BuildOutcome,
      build_doc_id_to_index_map cache now loc vs documents = Except.ok outcome ∧
      outcome.trace.take 3 =
        [BuildEvent.loadPersistedContext, BuildEvent.createEmptyContext,
         BuildEvent.persistStorageContext] ∧
      outcome.loc.hasPersisted = true := by
  have hctx : get_storage_context cache now S3_BUCKET_NAME vs loc =
      Except.error PyError.fileNotFoundError := by
    simp [get_storage_context, hmiss, storageContextFromPersistDir, hnp, hio]
  cases documents with
  | nil =>
      refine ⟨⟨[], { loc with hasPersisted := true, entries := [] }, cache,
        [BuildEvent.loadPersistedContext, BuildEvent.createEmptyContext,
         BuildEvent.persistStorageContext, BuildEvent.loadIndicesCall]⟩, ?_, rfl, rfl⟩
      simp [build_doc_id_to_index_map, hctx, load_indices_from_storage]
  | cons d ds =>
      rcases hre : rebuildDocuments ⟨true, false, []⟩ 0 (d :: ds) with ⟨m, l3, tr⟩
      have hflag := (rebuildDocuments_loc_flags (d :: ds) ⟨true, false, []⟩ 0).1
      rw [hre] at hflag
      refine ⟨⟨m, l3, cache,
        [BuildEvent.loadPersistedContext, BuildEvent.createEmptyContext,
         BuildEvent.persistStorageContext] ++ [BuildEvent.loadIndicesCall] ++ tr⟩,
        ?_, by simp, hflag⟩
      simp [build_doc_id_to_index_map, hctx, load_indices_from_storage,
        storageContextFromPersistDir, hio, hre, List.lookup]

/-- Witness for C8 at a concrete input: a fresh location with one requested
document. -/
theorem build_persists_empty_context_before_index_work_witness :
    ∃ outcome : BuildOutcome,
      build_doc_id_to_index_map emptyCache 0 ⟨false, false, []⟩ 0 [⟨"D", none⟩] =
        Except.ok outcome ∧
      outcome.trace.take 3 =
        [BuildEvent.loadPersistedContext, BuildEvent.createEmptyContext,
         BuildEvent.persistStorageContext] ∧
      outcome.loc.hasPersisted = true :=
  build_persists_empty_context_before_index_work emptyCache 0 ⟨false, false, []⟩ 0
    [⟨"D", none⟩] rfl rfl rfl

/-! ## C1: idempotence of the build via the bulk-load path -/

/-- When every requested id has a valid persisted index struct in the storage
context, `load_indices_from_storage` succeeds and returns, for each requested id,
exactly the persisted index's identity token. -/
theorem load_indices_all_valid (ctx : StorageContext) :
    ∀ ids : List String,
      (∀ id ∈ ids, ∃ token, ctx.entries.lookup id = some (IndexStructEntry.valid token)) →
      ∃ tokens : List Nat,
        load_indices_from_storage ctx ids = Except.ok tokens ∧
        ∀ id ∈ ids, ∃ token,
          ctx.entries.lookup id = some (IndexStructEntry.valid token) ∧
          (ids.zip tokens).lookup id = some token
  | [], _ => ⟨[], rfl, by simp⟩
  | id :: rest, h => by
      obtain ⟨token, htok⟩ := h id (List.mem_cons_self id rest)
      obtain ⟨tokens, hload, hres⟩ :=
        load_indices_all_valid ctx rest (fun i hi => h i (List.mem_cons_of_mem id hi))
      refine ⟨token :: tokens, ?_, ?_⟩
      · simp [load_indices_from_storage, htok, hload]
      · intro i hi
        by_cases hid : i = id
        · subst hid
          exact ⟨token, htok, by simp⟩
        · rcases List.mem_cons.mp hi with heq | hmem
          · exact absurd heq hid
          · obtain ⟨tk, htk, hzk⟩ := hres i hmem
            refine ⟨tk, htk, ?_⟩
            have hbeq : (i == id) = false := beq_eq_false_iff_ne.mpr hid
            simp only [List.zip_cons_cons, List.lookup, hbeq]
            simpa [List.zip] using hzk

/-- C1 (amended): when the storage-context cache holds no live entry for the
location that was cached before the requested indices were persisted — the cache
either misses, or hits a live entry whose index-store snapshot agrees with the
persisted location on every requested id — the location's storage is healthy, and
every requested document already has a valid persisted index, then
`build_doc_id_to_index_map` returns via the bulk-load path: it performs zero
chunking and zero embedding calls, leaves the persisted location unchanged, and
returns for each document exactly its existing persisted index. This covers the
spec's canonical call-twice scenario, where the second within-TTL call hits the
live, up-to-date entry cached by the first call's successful bulk load. -/
theorem build_bulk_load_idempotent (cache : TTLCacheState) (now : Nat)
    (loc : LocationState) (vs : Nat) (documents : List DocumentSchema)
    (hp : loc.hasPersisted = true) (hio : loc.ioFailure = false)
    (hfresh : ∀ ctx c2,
      cacheLookup cache (storageContextCacheKey S3_BUCKET_NAME) now = some (ctx, c2) →
      ∀ d ∈ documents, ctx.entries.lookup d.id = loc.entries.lookup d.id)
    (hall : ∀ d ∈ documents, ∃ token,
      loc.entries.lookup d.id = some (IndexStructEntry.valid token)) :
    ∃ outcome : BuildOutcome,
      build_doc_id_to_index_map cache now loc vs documents = Except.ok outcome ∧
      countEmbedCalls outcome.trace = 0 ∧
      countChunkCalls outcome.trace = 0 ∧
      outcome.loc = loc ∧
      ∀ d ∈ documents, ∃ token,
        loc.entries.lookup d.id = some (IndexStructEntry.valid token) ∧
        outcome.doc_id_to_index.lookup d.id = some token := by
  cases hc : cacheLookup cache (storageContextCacheKey S3_BUCKET_NAME) now with
  | none =>
      obtain ⟨tokens, hload, hres⟩ :=
        load_indices_all_valid ⟨vs, loc.entries⟩ (documents.map (fun d => d.id)) (by
          intro id hid
          obtain ⟨d, hd, rfl⟩ := List.mem_map.mp hid
          exact hall d hd)
      refine ⟨⟨(documents.map (fun d => d.id)).zip tokens, loc,
        cacheSet cache (storageContextCacheKey S3_BUCKET_NAME) ⟨vs, loc.entries⟩ now,
        [BuildEvent.loadPersistedContext, BuildEvent.loadIndicesCall]⟩, ?_, rfl, rfl, rfl, ?_⟩
      · simp [build_doc_id_to_index_map, get_storage_context, hc,
          storageContextFromPersistDir, hp, hio, hload]
      · intro d hd
        obtain ⟨tk, htk, hzk⟩ := hres d.id (List.mem_map_of_mem (fun d => d.id) hd)
        exact ⟨tk, htk, hzk⟩
  | some p =>
      rcases p with ⟨ctx, c2⟩
      have hagree := hfresh ctx c2 hc
      obtain ⟨tokens, hload, hres⟩ :=
        load_indices_all_valid ctx (documents.map (fun d => d.id)) (by
          intro id hid
          obtain ⟨d, hd, rfl⟩ := List.mem_map.mp hid
          obtain ⟨tk, htk⟩ := hall d hd
          exact ⟨tk, (hagree d hd).trans htk⟩)
      refine ⟨⟨(documents.map (fun d => d.id)).zip tokens, loc, c2,
        [BuildEvent.loadPersistedContext, BuildEvent.loadIndicesCall]⟩, ?_, rfl, rfl, rfl, ?_⟩
      · simp [build_doc_id_to_index_map, get_storage_context, hc, hload]
      · intro d hd
        obtain ⟨tk, htk, hzk⟩ := hres d.id (List.mem_map_of_mem (fun d => d.id) hd)
        exact ⟨tk, (hagree d hd).symm.trans htk, hzk⟩

/-- Witness for C1 at a concrete input exercising the call-twice scenario: the cache
holds a live, up-to-date entry (cached after "D"'s index was persisted, expiring at
time 400) and the build at time 150 hits it, bulk-loads "D"'s persisted index and
performs zero chunking and embedding calls. -/
theorem build_bulk_load_idempotent_witness :
    ∃ outcome : BuildOutcome,
      build_doc_id_to_index_map
        ⟨[("storage_context_clinical-guidelines-bucket",
           ⟨⟨7, [("D", IndexStructEntry.valid 9)]⟩, 400⟩)]⟩ 150
        ⟨true, false, [("D", IndexStructEntry.valid 9)]⟩ 7 [⟨"D", none⟩] =
        Except.ok outcome ∧
      countEmbedCalls outcome.trace = 0 ∧
      countChunkCalls outcome.trace = 0 ∧
      outcome.loc = ⟨true, false, [("D", IndexStructEntry.valid 9)]⟩ ∧
      ∀ d ∈ [(⟨"D", none⟩ : DocumentSchema)], ∃ token,
        (⟨true, false, [("D", IndexStructEntry.valid 9)]⟩ : LocationState).entries.lookup d.id =
          some (IndexStructEntry.valid token) ∧
        outcome.doc_id_to_index.lookup d.id = some token :=
  build_bulk_load_idempotent
    ⟨[("storage_context_clinical-guidelines-bucket",
       ⟨⟨7, [("D", IndexStructEntry.valid 9)]⟩, 400⟩)]⟩ 150
    ⟨true, false, [("D", IndexStructEntry.valid 9)]⟩ 7 [⟨"D", none⟩]
    rfl rfl
    (by
      intro ctx c2 hc d hd
      have hred : cacheLookup
          ⟨[("storage_context_clinical-guidelines-bucket",
             ⟨⟨7, [("D", IndexStructEntry.valid 9)]⟩, 400⟩)]⟩
          (storageContextCacheKey S3_BUCKET_NAME) 150 =
          some (⟨7, [("D", IndexStructEntry.valid 9)]⟩,
            ⟨[("storage_context_clinical-guidelines-bucket",
               ⟨⟨7, [("D", IndexStructEntry.valid 9)]⟩, 400⟩)]⟩) := rfl
      rw [hred] at hc
      have h := Option.some.inj hc
      have h1 : (⟨7, [("D", IndexStructEntry.valid 9)]⟩ : StorageContext) = ctx :=
        congrArg Prod.fst h
      rw [← h1])
    (by intro d hd; simp at hd; subst hd; exact ⟨9, rfl⟩)

/-- Counterexample to C1 as stated: two successive builds of document "Y" against
the same persisted location. The first build (time 100, empty cache) finds a
persisted context holding only "X", caches it, and rebuilds and persists "Y"'s
index. The second build (time 150, within the 5-minute TTL) hits the stale cached
context, fails the bulk load although "Y"'s index is persisted at the location, and
re-chunks and re-embeds "Y" — one chunking and one embedding call instead of zero. -/
theorem build_idempotence_counterexample :
    build_doc_id_to_index_map emptyCache 100 exampleLocWithX 7 [⟨"Y", none⟩] =
      Except.ok ⟨[("Y", 0)], locAfterFirstBuild, staleCacheExample,
        [BuildEvent.loadPersistedContext, BuildEvent.loadIndicesCall,
         BuildEvent.chunkDocument "Y", BuildEvent.embedDocument "Y",
         BuildEvent.persistIndex "Y"]⟩ ∧
    locAfterFirstBuild.entries.lookup "Y" = some (IndexStructEntry.valid 0) ∧
    embedCallsOf (build_doc_id_to_index_map staleCacheExample 150 locAfterFirstBuild 7
      [⟨"Y", none⟩]) = some 1 ∧
    chunkCallsOf (build_doc_id_to_index_map staleCacheExample 150 locAfterFirstBuild 7
      [⟨"Y", none⟩]) = some 1 :=
  ⟨rfl, rfl, rfl, rfl⟩

/-! ## C3: failure-class dispatch during index loading -/

/-- The per-document rebuild loop chunks and embeds every requested document exactly
once. -/
theorem rebuildDocuments_counts :
    ∀ (documents : List DocumentSchema) (loc : LocationState) (nextToken : Nat),
      countChunkCalls (rebuildDocuments loc nextToken documents).2.2 = documents.length ∧
      countEmbedCalls (rebuildDocuments loc nextToken documents).2.2 = documents.length
  | [], loc, n => ⟨rfl, rfl⟩
  | d :: ds, loc, n => by
      rcases hre : rebuildDocuments
        { loc with entries := (d.id, IndexStructEntry.valid n) ::
            loc.entries.eraseP (fun kv => kv.1 == d.id) } (n + 1) ds
        with ⟨m, l3, tr⟩
      have ih := rebuildDocuments_counts ds
        { loc with entries := (d.id, IndexStructEntry.valid n) ::
            loc.entries.eraseP (fun kv => kv.1 == d.id) } (n + 1)
      rw [hre] at ih
      simp only [rebuildDocuments, hre]
      simp only [countChunkCalls, countEmbedCalls, List.filter_append,
        List.length_append] at ih ⊢
      simp [List.filter, ih.1, ih.2]
      omega

/-- C3 (amended): during index loading, every failure of Python class `ValueError` —
the missing-id not-found condition as well as `ValueError`-class deserialization
errors such as `json.JSONDecodeError` — triggers the full per-document rebuild
fallback (each requested document is re-chunked and re-embedded); only failures
outside the `ValueError` class (e.g. an `OSError` from the storage layer) are
propagated to the caller of `build_doc_id_to_index_map`. -/
theorem build_valueerror_rebuild_other_propagates (vs now : Nat)
    (documents : List DocumentSchema) :
    (∀ (loc : LocationState) (k : ValueErrorKind),
      loc.hasPersisted = true → loc.ioFailure = false →
      load_indices_from_storage ⟨vs, loc.entries⟩ (documents.map (fun d => d.id)) =
        Except.error (PyError.valueError k) →
      ∃ outcome : BuildOutcome,
        build_doc_id_to_index_map emptyCache now loc vs documents = Except.ok outcome ∧
        countChunkCalls outcome.trace = documents.length ∧
        countEmbedCalls outcome.trace = documents.length) ∧
    (∀ loc : LocationState, loc.ioFailure = true →
      build_doc_id_to_index_map emptyCache now loc vs documents =
        Except.error (PyError.otherError "OSError")) := by
  constructor
  · intro loc k hp hio hload
    rcases hre : rebuildDocuments loc 0 documents with ⟨m, l3, tr⟩
    have hcnt := rebuildDocuments_counts documents loc 0
    rw [hre] at hcnt
    refine ⟨⟨m, l3,
      cacheSet emptyCache (storageContextCacheKey S3_BUCKET_NAME) ⟨vs, loc.entries⟩ now,
      [BuildEvent.loadPersistedContext] ++ [BuildEvent.loadIndicesCall] ++ tr⟩,
      ?_, ?_, ?_⟩
    · simp [build_doc_id_to_index_map, get_storage_context, cacheLookup, emptyCache,
        List.lookup, storageContextFromPersistDir, hp, hio, hload, hre]
    · simpa [countChunkCalls, List.filter_append, List.filter] using hcnt.1
    · simpa [countEmbedCalls, List.filter_append, List.filter] using hcnt.2
  · intro loc hio
    simp [build_doc_id_to_index_map, get_storage_context, cacheLookup, emptyCache,
      List.lookup, storageContextFromPersistDir, hio]

/-- Witness for C3 at a concrete input: a persisted location whose only index struct
for "D" is undecodable triggers the rebuild; a one-document request is re-chunked and
re-embedded once. -/
theorem build_valueerror_rebuild_other_propagates_witness :
    ∃ outcome : BuildOutcome,
      build_doc_id_to_index_map emptyCache 0
        ⟨true, false, [("D", IndexStructEntry.corrupt)]⟩ 0 [⟨"D", none⟩] =
        Except.ok outcome ∧
      countChunkCalls outcome.trace = 1 ∧
      countEmbedCalls outcome.trace = 1 :=
  (build_valueerror_rebuild_other_propagates 0 0 [⟨"D", none⟩]).1
    ⟨true, false, [("D", IndexStructEntry.corrupt)]⟩ ValueErrorKind.jsonDecode
    rfl rfl rfl

/-- Counterexample to C3 as stated: a deserialization failure — not a "not found"
condition — raised while loading (the persisted index struct for "D" fails to decode,
raising `json.JSONDecodeError`, a subclass of `ValueError`) is caught by the broad
`except ValueError` and triggers the per-document rebuild (one chunking and one
embedding pass) instead of being propagated to the caller. -/
theorem build_propagation_counterexample :
    load_indices_from_storage ⟨0, [("D", IndexStructEntry.corrupt)]⟩ ["D"] =
      Except.error (PyError.valueError ValueErrorKind.jsonDecode) ∧
    embedCallsOf (build_doc_id_to_index_map emptyCache 0
      ⟨true, false, [("D", IndexStructEntry.corrupt)]⟩ 0 [⟨"D", none⟩]) = some 1 ∧
    chunkCallsOf (build_doc_id_to_index_map emptyCache 0
      ⟨true, false, [("D", IndexStructEntry.corrupt)]⟩ 0 [⟨"D", none⟩]) = some 1 :=
  ⟨rfl, rfl, rfl⟩

/-! ## C4: empty document set — placeholder prompt and empty router tool set -/

/-- A build for an empty document list that returns at all returns an empty
document-id-to-index mapping (the bulk load of zero ids trivially succeeds, and the
rebuild loop over zero documents builds nothing). -/
theorem build_empty_documents (cache : TTLCacheState) (now : Nat)
    (loc : LocationState) (vs : Nat) (outcome : BuildOutcome)
    (h : build_doc_id_to_index_map cache now loc vs [] = Except.ok outcome) :
    outcome.doc_id_to_index = [] := by
  cases hg : get_storage_context cache now S3_BUCKET_NAME vs loc with
  | ok p =>
      rcases p with ⟨ctx, c2⟩
      simp [build_doc_id_to_index_map, hg, load_indices_from_storage] at h
      subst h
      rfl
  | error e =>
      cases e with
      | fileNotFoundError =>
          simp [build_doc_id_to_index_map, hg, load_indices_from_storage] at h
          subst h
          rfl
      | valueError k => simp [build_doc_id_to_index_map, hg] at h
      | otherError s => simp [build_doc_id_to_index_map, hg] at h

/-- C4 (amended): for every conversation whose document set is empty, any
successfully built chat engine has an empty router tool set, and its system prompt
contains the placeholder text `"No clinical guidelines selected."` (the literal
placeholder the source substitutes for the document title list; the prompt does not
contain the spec's quoted phrasing "no documents selected"). -/
theorem chat_engine_empty_documents (cache : TTLCacheState) (now : Nat)
    (loc : LocationState) (vs : Nat) (messages : List MessageSchema)
    (curr_date : String) (cfg : ChatEngineConfig) (loc' : LocationState)
    (c' : TTLCacheState)
    (h : get_chat_engine cache now loc vs ⟨[], messages⟩ curr_date =
      Except.ok (cfg, loc', c')) :
    cfg.router_tools = [] ∧
    strContains cfg.system_prompt "No clinical guidelines selected." := by
  cases hb : build_doc_id_to_index_map cache now loc vs [] with
  | error e => simp [get_chat_engine, hb] at h
  | ok o =>
      have hmap : o.doc_id_to_index = [] := build_empty_documents cache now loc vs o hb
      simp [get_chat_engine, hb, hmap] at h
      obtain ⟨hcfg, hl, hc⟩ := h
      constructor
      · rw [← hcfg]
      · rw [← hcfg]
        refine ⟨"You are an expert clinical assistant helping the user analyse the selected clinical practice guidelines.\nThe selected guidelines are:\n",
          "\nThe current date is " ++ curr_date ++ ".", ?_⟩
        simp only [CLINICAL_SYSTEM_MESSAGE_format, string_append_assoc]
        rfl

/-- Witness for C4 at a concrete input: the empty conversation built at date
2026-01-01. -/
theorem chat_engine_empty_documents_witness :
    exampleChatEngineCfg.router_tools = [] ∧
    strContains exampleChatEngineCfg.system_prompt "No clinical guidelines selected." :=
  chat_engine_empty_documents emptyCache 0 examplePersistedEmptyLoc 0 [] "2026-01-01"
    exampleChatEngineCfg examplePersistedEmptyLoc exampleCacheAfterEmptyBuild rfl

/-- Counterexample to C4 as stated: for the concrete empty conversation the system
prompt does not contain the claim's quoted placeholder text "no documents selected";
the placeholder the source actually substitutes is
`"No clinical guidelines selected."` (engine.py:489), and the router tool set is
indeed empty. -/
theorem chat_engine_placeholder_counterexample :
    (systemPromptOf (get_chat_engine emptyCache 0 examplePersistedEmptyLoc 0 ⟨[], []⟩
      "2026-01-01")).map (fun s => strContainsB s "no documents selected") =
      some false ∧
    (systemPromptOf (get_chat_engine emptyCache 0 examplePersistedEmptyLoc 0 ⟨[], []⟩
      "2026-01-01")).map (fun s => strContainsB s "No clinical guidelines selected.") =
      some true ∧
    routerToolsOf (get_chat_engine emptyCache 0 examplePersistedEmptyLoc 0 ⟨[], []⟩
      "2026-01-01") = some [] :=
  ⟨rfl, rfl, rfl⟩
